import Mathlib

/-!
Verification of the msgraph-async client library design:
the OData query builder (msgraph_async/common/odata_query.py) and the
GraphClient request pipeline, token lifecycle and pagination
(msgraph_async/client/client.py), shallowly embedded in Lean.

Python values assigned through the validating setters are modelled by the
dynamic value type PyVal; validated state is held in typed structures.
Operations that can raise follow the convention: Except models a raised,
catchable library error with its message, and Option models a computation
whose result is either a value or an uncaught runtime crash
(AttributeError, TypeError, KeyError) or a value the embedding cannot
render deterministically.
-/

namespace MsGraphAsync

/-! ## odata_query.py: operators, connectors, dynamic values -/

/-- The eight comparison operators of class LogicalOperator, each carrying a
format template.  template op a v is the result of the Python expression
op.template.format(attribute=a, val=v). -/
inductive LogicalOperator where
  | EQ | NE | LT | GT | LE | GE | STARTS_WITH | ENDS_WITH
deriving DecidableEq

/-- op.template.format(attribute=a, val=v) for each operator of the source. -/
def LogicalOperator.template (op : LogicalOperator) (a v : String) : String :=
  match op with
  | .EQ => a ++ " eq " ++ v
  | .NE => a ++ " ne " ++ v
  | .LT => a ++ " lt " ++ v
  | .GT => a ++ " gt " ++ v
  | .LE => a ++ " le " ++ v
  | .GE => a ++ " ge " ++ v
  | .STARTS_WITH => "startsWith(" ++ a ++ ", " ++ v ++ ")"
  | .ENDS_WITH => "endsWith(" ++ a ++ ", " ++ v ++ ")"

/-- The two connectors of class LogicalConnector. -/
inductive LogicalConnector where
  | AND | OR
deriving DecidableEq

/-- connector.name.lower(), as used by ODataQuery._build_filter. -/
def LogicalConnector.nameLower : LogicalConnector → String
  | .AND => "and"
  | .OR => "or"

/-- A dynamically typed Python value, as far as the odata_query module can
observe one: the scalar types its setters test with type(...) is ...,
lists, and instances of the module classes.  A Constrain instance is the
constructor pyConstrain holding the three (unvalidated) attributes stored
by Constrain.__init__; a Filter instance is pyFilterObj holding the two
slots guarded by the Filter setters. -/
inductive PyVal where
  | pyNone
  | pyBool (b : Bool)
  | pyInt (n : Int)
  | pyStr (s : String)
  | pyList (l : List PyVal)
  | pyOperator (op : LogicalOperator)
  | pyConnector (c : LogicalConnector)
  | pyConstrain (attr logical_operator value : PyVal)
  | pyFilterObj (constrains : Option (List PyVal))
      (logical_connector : Option LogicalConnector)

/-- type(v) is str, extracting the string. -/
def PyVal.asStr : PyVal → Option String
  | .pyStr s => some s
  | _ => none

/-- type(v) is Constrain. -/
def PyVal.isConstrain : PyVal → Bool
  | .pyConstrain _ _ _ => true
  | _ => false

/-- str(v) for the values on which Python str() is deterministic; instances
of classes without __str__ print a memory address, which the embedding
does not model (none). -/
def pyScalarStr : PyVal → Option String
  | .pyStr s => some s
  | .pyInt n => some (toString n)
  | .pyBool true => some "True"
  | .pyBool false => some "False"
  | .pyNone => some "None"
  | _ => none

/-- str() of a Python bool, before lower-casing. -/
def pyBoolStr : Bool → String
  | true => "True"
  | false => "False"

/-- "sep".join(l). -/
def pyJoin (sep : String) : List String → String
  | [] => ""
  | s :: rest => rest.foldl (fun acc x => acc ++ sep ++ x) s

/-- s.lower() (ASCII model of Python str.lower). -/
def pyLower (s : String) : String := ⟨s.data.map Char.toLower⟩

/-- s.startswith(pre). -/
def pyStartsWith (s pre : String) : Bool := pre.data.isPrefixOf s.data

/-- Whether pat occurs as a contiguous run of l. -/
def listHasInfix (pat : List Char) : List Char → Bool
  | [] => pat.isEmpty
  | c :: rest => pat.isPrefixOf (c :: rest) || listHasInfix pat rest

/-! ## odata_query.py: Constrain -/

/-- Constrain.__init__: stores the three arguments unchecked.  It never
raises, whatever the types of the arguments. -/
def constrainInit (attr logical_operator value : PyVal) : Except String PyVal :=
  .ok (.pyConstrain attr logical_operator value)

/-- Constrain.__str__ on the stored attributes:
self._logical_operator.template.format(attribute=self._attribute,
val=self._value).  Crashes (none) when the stored operator is not a
LogicalOperator (no .template attribute); attribute and value are passed
through str() by format. -/
def constrainStr (attr logical_operator value : PyVal) : Option String :=
  match logical_operator with
  | .pyOperator op =>
    match pyScalarStr attr, pyScalarStr value with
    | some a, some v => some (op.template a v)
    | _, _ => none
  | _ => none

/-- str(c) for a list element of Filter.constrains; a non-Constrain element
has none of the attributes and crashes (none). -/
def constrainStrOf : PyVal → Option String
  | .pyConstrain a o v => constrainStr a o v
  | _ => none

/-! ## odata_query.py: Filter -/

/-- The state of a Filter instance: both slots start as None in
Filter.__init__ and are only ever written through the validating
setters. -/
structure Filter where
  constrains : Option (List PyVal) := none
  logical_connector : Option LogicalConnector := none

/-- type(v) is Filter, extracting the instance. -/
def PyVal.asFilter : PyVal → Option Filter
  | .pyFilterObj cs lc => some ⟨cs, lc⟩
  | _ => none

/-- Filter.constrains setter: requires a list whose members are all
Constrain instances. -/
def Filter.setConstrains (f : Filter) (value : PyVal) : Except String Filter :=
  match value with
  | .pyList l =>
    if l.all PyVal.isConstrain then .ok { f with constrains := some l }
    else .error "all values must be constrains"
  | _ => .error "constrains must be list"

/-- Filter.logical_connector setter: requires a LogicalConnector. -/
def Filter.setLogicalConnector (f : Filter) (value : PyVal) : Except String Filter :=
  match value with
  | .pyConnector c => .ok { f with logical_connector := some c }
  | _ => .error "logical connector must be of type LogicalConnector"

/-! ## odata_query.py: ODataQuery -/

/-- The state of an ODataQuery instance: all five slots start as None and
are only written through the validating setters. -/
structure ODataQuery where
  count : Option Bool := none
  expand : Option String := none
  filter : Option Filter := none
  select : Option (List String) := none
  top : Option Int := none

/-- count setter: type(value) is bool. -/
def ODataQuery.setCount (q : ODataQuery) (value : PyVal) : Except String ODataQuery :=
  match value with
  | .pyBool b => .ok { q with count := some b }
  | _ => .error "count must be boolean"

/-- expand setter: type(value) is str. -/
def ODataQuery.setExpand (q : ODataQuery) (value : PyVal) : Except String ODataQuery :=
  match value with
  | .pyStr s => .ok { q with expand := some s }
  | _ => .error "expand must be string"

/-- filter setter: type(value) is Filter. -/
def ODataQuery.setFilter (q : ODataQuery) (value : PyVal) : Except String ODataQuery :=
  match value with
  | .pyFilterObj cs lc => .ok { q with filter := some ⟨cs, lc⟩ }
  | _ => .error "filter must of Filter type"

/-- select setter: type(value) is list and every member is a str. -/
def ODataQuery.setSelect (q : ODataQuery) (value : PyVal) : Except String ODataQuery :=
  match value with
  | .pyList l =>
    match l.mapM PyVal.asStr with
    | some ss => .ok { q with select := some ss }
    | none => .error "all values should be strings"
  | _ => .error "select must be list of strings"

/-- top setter: type(value) is int (a bool is not an int for type(...) is). -/
def ODataQuery.setTop (q : ODataQuery) (value : PyVal) : Except String ODataQuery :=
  match value with
  | .pyInt n => .ok { q with top := some n }
  | _ => .error "top must be integer"

/-! Python truthiness of the slot values, as tested by the if statements
of ODataQuery.__str__. -/

/-- Truthiness of an optional bool slot (None and False are falsy). -/
def optBoolTruthy : Option Bool → Bool
  | some b => b
  | none => false

/-- Truthiness of an optional string slot (None and the empty string are
falsy). -/
def optStrTruthy : Option String → Bool
  | some s => !s.isEmpty
  | none => false

/-- Truthiness of an optional list slot (None and the empty list are
falsy). -/
def optListTruthy {α : Type} : Option (List α) → Bool
  | some l => !l.isEmpty
  | none => false

/-- Truthiness of an optional int slot (None and 0 are falsy). -/
def optIntTruthy : Option Int → Bool
  | some n => !(n == 0)
  | none => false

/-- The guard of ODataQuery.__str__: not self.count and not self.expand and
not self.filter and not self.select and not self.top.  A Filter instance
is always truthy. -/
def ODataQuery.isTruthyEmpty (q : ODataQuery) : Bool :=
  !optBoolTruthy q.count && !optStrTruthy q.expand && !q.filter.isSome
    && !optListTruthy q.select && !optIntTruthy q.top

/-- The loop of ODataQuery._build_filter: res starts empty; for each
constrain, a connector separator is appended first when res is non-empty
(crashing, none, when the connector slot is still None), then
str(constrain). -/
def buildFilterGo (lc : Option LogicalConnector) : List PyVal → String → Option String
  | [], res => some res
  | c :: rest, res =>
    let step : Option String :=
      if res = "" then constrainStrOf c
      else
        match lc with
        | some conn => (constrainStrOf c).map fun s => res ++ " " ++ conn.nameLower ++ " " ++ s
        | none => none
    match step with
    | some res2 => buildFilterGo lc rest res2
    | none => none

/-- ODataQuery._build_filter on the stored Filter; iterating a None
constrains slot would crash (none), though __str__ only calls it when the
slot holds a non-empty list. -/
def ODataQuery.buildFilter (f : Filter) : Option String :=
  match f.constrains with
  | some cs => buildFilterGo f.logical_connector cs ""
  | none => none

/-- The filter clause of ODataQuery.__str__: the guard is
self.filter and self.filter.constrains, and on success one
$filter=... element is produced. -/
def filterClause (q : ODataQuery) : Option (List String) :=
  match q.filter with
  | some f =>
    if optListTruthy f.constrains then
      (ODataQuery.buildFilter f).map fun fs => ["$filter=" ++ fs]
    else some []
  | none => some []

/-- The res list built by ODataQuery.__str__ after the empty guard: one
conditional append per slot, in source order count, expand, filter,
select, top. -/
def ODataQuery.strParts (q : ODataQuery) : Option (List String) := do
  let res : List String := []
  let res := if optBoolTruthy q.count then
      res.concat ("$count=" ++ pyLower (pyBoolStr (q.count.getD false)))
    else res
  let res := if optStrTruthy q.expand then
      res.concat ("$expand=" ++ pyLower (q.expand.getD ""))
    else res
  let fc ← filterClause q
  let res := res ++ fc
  let res := if optListTruthy q.select then
      res.concat ("$select=" ++ pyJoin "," (q.select.getD []))
    else res
  let res := if optIntTruthy q.top then
      res.concat ("$top=" ++ toString (q.top.getD 0))
    else res
  pure res

/-- ODataQuery.__str__: the sentinel when every slot is falsy, otherwise
"?" followed by the collected key=value elements joined by "&". -/
def ODataQuery.toStr (q : ODataQuery) : Option String :=
  if q.isTruthyEmpty then some "EMPTY OPEN DATA QUERY"
  else (q.strParts).map fun res => "?" ++ pyJoin "&" res

/-! ## client.py: the request pipeline (GraphClient._request) -/

/-- The Python membership test pat in s for strings. -/
def strContains (s pat : String) : Bool :=
  listHasInfix pat.data s.data

/-- Case-sensitive first lookup in an association-list model of a Python
dict (keys are unique by construction, so first is the binding). -/
def dictGet (d : List (String × String)) (k : String) : Option String :=
  (d.find? fun p => p.1 = k).map Prod.snd

/-- Python dict assignment d[k] = v: replaces the binding in place when the
key is present, otherwise appends it (insertion order preserved). -/
def dictInsert (d : List (String × String)) (k v : String) : List (String × String) :=
  if d.any fun p => p.1 = k then d.map fun p => if p.1 = k then (k, v) else p
  else d ++ [(k, v)]

/-- Python dict.update(u): assign every binding of u in order. -/
def dictUpdate (d u : List (String × String)) : List (String × String) :=
  u.foldl (fun acc kv => dictInsert acc kv.1 kv.2) d

/-- An HTTP response as _request observes it: status code, response
headers, and the body in both of the forms the transport can hand back
(resp.json() when the Content-Type header mentions application/json,
resp.read() otherwise). -/
structure HttpResponse where
  status : Nat
  headers : List (String × String)
  bodyJson : PyVal
  bodyBytes : String

/-- The payload _request returns: a parsed JSON document or raw bytes. -/
inductive Payload where
  | jsonContent (v : PyVal)
  | rawContent (b : String)

/-- The error kinds of the status-code → exception table.
Modelled from the spec: the concrete exception classes live in
msgraph_async/common/exceptions.py, which is not among the sources; spec
section 7 names the kinds unauthorized, forbidden, not-found, throttled,
server-error and a generic unknown-API-error. -/
inductive ExceptionKind where
  | unauthorized | forbidden | notFound | throttled | serverError | unknownApiError
deriving DecidableEq

/-- Modelled from the spec: the table status2exception of
msgraph_async/common/exceptions.py is not among the sources; spec
section 7 fixes 401→unauthorized, 403→forbidden, 404→not-found,
429→throttled, 5xx→server-error, and every unmapped code falls back to
the generic unknown-API-error kind (the dict .get default). -/
def status2exception (status : Nat) : ExceptionKind :=
  if status = 401 then .unauthorized
  else if status = 403 then .forbidden
  else if status = 404 then .notFound
  else if status = 429 then .throttled
  else if 500 ≤ status ∧ status ≤ 599 then .serverError
  else .unknownApiError

/-- The raised API error: the exception is constructed with the response
payload and the response headers. -/
structure GraphError where
  kind : ExceptionKind
  payload : Payload
  respHeaders : List (String × String)

/-- HTTPStatus.OK, HTTPStatus.NO_CONTENT, HTTPStatus.CREATED: the default
expected_statuses tuple of _request. -/
def defaultExpectedStatuses : List Nat := [200, 204, 201]

/-- resp.headers then payload selection of _request: reading
resp.headers[Content-Type] raises KeyError (none) when absent; the body
is parsed as JSON when the header value contains application/json. -/
def readPayload (resp : HttpResponse) : Option Payload :=
  (dictGet resp.headers "Content-Type").map fun ct =>
    if strContains ct "application/json" then .jsonContent resp.bodyJson
    else .rawContent resp.bodyBytes

/-- GraphClient._request on a response: if not expected_statuses (None or
an empty sequence), the defaults apply; an expected status returns
(payload, status); any other status raises the exception selected by
status2exception, carrying the payload and the response headers. -/
def graphRequest (resp : HttpResponse) (expectedStatuses : Option (List Nat)) :
    Option (Except GraphError (Payload × Nat)) :=
  let expected :=
    match expectedStatuses with
    | none => defaultExpectedStatuses
    | some [] => defaultExpectedStatuses
    | some l => l
  (readPayload resp).map fun payload =>
    if expected.contains resp.status then .ok (payload, resp.status)
    else .error { kind := status2exception resp.status, payload := payload,
                  respHeaders := resp.headers }

/-! ## client.py: token lifecycle (GraphClient.manage_token and the
token_refresh_interval_sec setter) -/

/-- The token-related state of a GraphClient: _token and _managed start as
None and False, _token_refresh_interval_sec as 3300; scheduled records
the interval of each job handed to the scheduler. -/
structure ClientState where
  token : Option String := none
  managed : Bool := false
  token_refresh_interval_sec : Int := 3300
  scheduled : List Int := []

/-- The token_refresh_interval_sec setter: value < 60 or value > 3600 is
rejected; the managed flag is not consulted. -/
def setTokenRefreshIntervalSec (st : ClientState) (value : Int) :
    Except String ClientState :=
  if value < 60 ∨ value > 3600 then
    .error "refresh interval must be between 60 and 3600 seconds"
  else .ok { st with token_refresh_interval_sec := value }

/-- What one call of manage_token did: its result, the client state after
the call, and whether a token acquisition was attempted at all. -/
structure ManageOutcome where
  result : Except String Unit
  state : ClientState
  acquired : Bool

/-- GraphClient.manage_token, with the outcome of the acquire_token call it
would make passed in as acq (an error models a raised exception, the ok
value is the (content, status) pair).  When already managed it raises
before anything else.  Otherwise _refresh_token stores
content[access_token] (a missing key raises, is caught, and is re-raised
as a GraphClientException with the state untouched), the refresh job is
scheduled at the current interval, and only then is _managed set. -/
def manageToken (st : ClientState)
    (acq : Except String (List (String × String) × Nat)) : ManageOutcome :=
  if st.managed then
    { result := .error "Token is already managed", state := st, acquired := false }
  else
    match acq with
    | .error e => { result := .error e, state := st, acquired := true }
    | .ok (content, _) =>
      match dictGet content "access_token" with
      | none => { result := .error "KeyError: access_token", state := st, acquired := true }
      | some tok =>
        { result := .ok ()
          state :=
            { st with
              token := some tok
              managed := true
              scheduled := st.scheduled.concat st.token_refresh_interval_sec }
          acquired := true }

/-! ## client.py: the authorized decorator and _build_auth_header -/

/-- Truthiness of an optional header dict, as tested by
if kwargs.get(extra_headers). -/
def optDictTruthy : Option (List (String × String)) → Bool
  | some d => !d.isEmpty
  | none => false

/-- GraphClient._build_auth_header: a token already starting with bearer
(case-insensitively) is passed through, otherwise the bearer prefix is
added. -/
def buildAuthHeader (token : String) : List (String × String) :=
  if pyStartsWith (pyLower token) "bearer" then [("authorization", token)]
  else [("authorization", "bearer " ++ token)]

/-- The token the decorator selects: kwargs[token] if truthy, else
client._token. -/
def selectedToken (clientToken callToken : Option String) : String :=
  if optStrTruthy callToken then callToken.getD "" else clientToken.getD ""

/-- The authorized decorator: raises when neither client._token nor
kwargs.get(token) is truthy, without attempting the wrapped call;
otherwise builds the request headers from the selected token, adds the
JSON Content-type, and applies truthy caller extra_headers last (dict
update, so they win conflicts). -/
def authorizedHeaders (clientToken callToken : Option String)
    (extraHeaders : Option (List (String × String))) :
    Except String (List (String × String)) :=
  if !optStrTruthy clientToken && !optStrTruthy callToken then
    .error "Token is not managed so you must explicitly provide it"
  else
    let h := buildAuthHeader (selectedToken clientToken callToken)
    let h := dictUpdate h [("Content-type", "application/json")]
    let h := if optDictTruthy extraHeaders then dictUpdate h (extraHeaders.getD []) else h
    .ok h

/-! ## client.py: pagination (GraphClient.list_all_users and
list_all_user_mails share this mechanism) -/

/-- One page payload as the generators read it: res[value] is the item
array and res.get(@odata.nextLink) the optional continuation URL. -/
structure Page (α : Type) where
  value : List α
  nextUrl : Option String

/-- Truthiness of the continuation URL, as tested by while next_url (an
absent key gives None; an empty string is also falsy). -/
def nextTruthy : Option String → Bool
  | some s => !s.isEmpty
  | none => false

/-- One observable step of a paginated generator: a continuation fetch of
a URL, or an item handed to the consumer. -/
inductive PageEvent (α : Type) where
  | fetched (url : String)
  | yielded (x : α)
deriving DecidableEq

/-- The while next_url loop shared by list_all_users and
list_all_user_mails, as the trace of fetches and yields it produces: each
iteration fetches the page of the current URL from env, reads the next
continuation URL, and yields the items of the page in order.  fuel bounds
the number of iterations; none means the loop did not finish within
fuel fetches. -/
def listAllLoop {α : Type} (env : String → Page α) :
    Nat → Option String → Option (List (PageEvent α))
  | fuel, u =>
    if nextTruthy u then
      match fuel with
      | 0 => none
      | fuel' + 1 =>
        let url := u.getD ""
        let p := env url
        (listAllLoop env fuel' p.nextUrl).map fun tr =>
          .fetched url :: (p.value.map .yielded ++ tr)
    else some []

/-- A paginated generator such as list_all_users: the first (bulk) page is
fetched, its items are yielded in order, then the loop follows
continuation URLs until one is absent. -/
def listAllTrace {α : Type} (firstPage : Page α) (env : String → Page α)
    (fuel : Nat) : Option (List (PageEvent α)) :=
  (listAllLoop env fuel firstPage.nextUrl).map fun tr =>
    firstPage.value.map .yielded ++ tr

/-- The items a trace hands to the consumer, in order. -/
def traceItems {α : Type} (tr : List (PageEvent α)) : List α :=
  tr.filterMap fun e =>
    match e with
    | .yielded x => some x
    | .fetched _ => none

/-! ## Spec-side definitions: the declarative reading of the QueryBuilder
contract, for comparison with the source embedding above -/

/-- The count pair of the fragment list: present exactly when the slot
holds True. -/
def countFrag (q : ODataQuery) : List String :=
  if q.count = some true then ["$count=true"] else []

/-- The expand pair: the stored string lower-cased, present when the slot
holds a non-empty string. -/
def expandFrag (q : ODataQuery) : List String :=
  match q.expand with
  | some s => if s = "" then [] else ["$expand=" ++ pyLower s]
  | none => []

/-- The select pair: comma-joined field names, present when the slot holds
a non-empty list. -/
def selectFrag (q : ODataQuery) : List String :=
  match q.select with
  | some l => if l = [] then [] else ["$select=" ++ pyJoin "," l]
  | none => []

/-- The top pair: the integer printed, present when the slot holds a
non-zero integer. -/
def topFrag (q : ODataQuery) : List String :=
  match q.top with
  | some n => if n = 0 then [] else ["$top=" ++ toString n]
  | none => []

/-- The fragment list of a query in the fixed order count, expand, filter,
select, top (none when rendering the filter crashes). -/
def specFragments (q : ODataQuery) : Option (List String) :=
  (filterClause q).map fun fc =>
    countFrag q ++ expandFrag q ++ fc ++ selectFrag q ++ topFrag q

/-- Rendered constraints joined by the lower-case connector name with
single spaces around it. -/
def specFilterJoin (conn : LogicalConnector) (ss : List String) : String :=
  pyJoin (" " ++ conn.nameLower ++ " ") ss

/-- The continuation chain reachable from a URL value in env: a falsy URL
ends the traversal at once; a truthy URL is fetched, contributing its
fetch event and the yields of its page before the chain of the page's own
continuation URL.  The index counts the fetches of the chain. -/
inductive PageChain {α : Type} (env : String → Page α) :
    Option String → List (PageEvent α) → Nat → Prop
  | stop (u : Option String) (h : nextTruthy u = false) : PageChain env u [] 0
  | step (url : String) (h : url.isEmpty = false) (tr : List (PageEvent α)) (n : Nat)
      (hrest : PageChain env (env url).nextUrl tr n) :
      PageChain env (some url)
        (.fetched url :: ((env url).value.map .yielded ++ tr)) (n + 1)

/-! ## Concrete fixtures used by the witnesses -/

/-- Constraint (name eq \x27x\x27) from the testable-properties example. -/
def constrainNameEx : PyVal :=
  .pyConstrain (.pyStr "name") (.pyOperator .EQ) (.pyStr "\x27x\x27")

/-- Constraint (age gt \x2710\x27) from the testable-properties example. -/
def constrainAgeEx : PyVal :=
  .pyConstrain (.pyStr "age") (.pyOperator .GT) (.pyStr "\x2710\x27")

/-- The two constraints joined by OR. -/
def filterEx : Filter :=
  { constrains := some [constrainNameEx, constrainAgeEx]
    logical_connector := some .OR }

/-- Three pages of two items each: continuation URLs u2 and u3, third page
without one. -/
def pagesEnvEx : String → Page Nat := fun url =>
  if url = "u2" then { value := [3, 4], nextUrl := some "u3" }
  else if url = "u3" then { value := [5, 6], nextUrl := none }
  else { value := [], nextUrl := none }

/-- The first (bulk) page of the three-page fixture. -/
def firstPageEx : Page Nat := { value := [1, 2], nextUrl := some "u2" }

/-- The last binding of a key in an update list, which is the binding that
wins a Python dict.update. -/
def lastBinding (u : List (String × String)) (k : String) : Option String :=
  (u.reverse.find? fun p => p.1 = k).map Prod.snd

/-- A 404 JSON response. -/
def notFoundRespEx : HttpResponse :=
  { status := 404
    headers := [("Content-Type", "application/json")]
    bodyJson := .pyStr "Resource not found"
    bodyBytes := "" }

/-! ## Helper lemmas -/

theorem foldl_append_shift (sep : String) (l : List String) (a b : String) :
    l.foldl (fun acc x => acc ++ sep ++ x) (a ++ b)
      = a ++ l.foldl (fun acc x => acc ++ sep ++ x) b := by
  induction l generalizing b with
  | nil => rfl
  | cons x xs ih =>
    simp only [List.foldl_cons]
    rw [String.append_assoc a b sep, String.append_assoc a (b ++ sep) x]
    exact ih (b ++ sep ++ x)

theorem pyJoin_cons (sep a : String) (l : List String) :
    pyJoin sep (a :: l) = a ++ l.foldl (fun acc x => acc ++ sep ++ x) "" := by
  have h := foldl_append_shift sep l a ""
  rw [String.append_empty] at h
  exact h

theorem optBoolTruthy_eq_false (o : Option Bool) :
    optBoolTruthy o = false ↔ o = none ∨ o = some false := by
  cases o with
  | none => simp [optBoolTruthy]
  | some b => cases b <;> simp [optBoolTruthy]

theorem optStrTruthy_eq_false (o : Option String) :
    optStrTruthy o = false ↔ o = none ∨ o = some "" := by
  cases o with
  | none => simp [optStrTruthy]
  | some s => simp [optStrTruthy, String.isEmpty_iff]

theorem optListTruthy_eq_false {α : Type} (o : Option (List α)) :
    optListTruthy o = false ↔ o = none ∨ o = some [] := by
  cases o with
  | none => simp [optListTruthy]
  | some l => simp [optListTruthy, List.isEmpty_iff]

theorem optIntTruthy_eq_false (o : Option Int) :
    optIntTruthy o = false ↔ o = none ∨ o = some 0 := by
  cases o with
  | none => simp [optIntTruthy]
  | some n => simp [optIntTruthy]

theorem concat_ite (P : Prop) [Decidable P] (l : List String) (x : String) :
    (if P then l.concat x else l) = l ++ if P then [x] else [] := by
  split <;> simp

theorem isSome_eq_false {α : Type} (o : Option α) : o.isSome = false ↔ o = none := by
  cases o <;> simp

theorem countFrag_eq (q : ODataQuery) :
    (if optBoolTruthy q.count then
        ["$count=" ++ pyLower (pyBoolStr (q.count.getD false))] else ([] : List String))
      = countFrag q := by
  unfold countFrag
  cases hc : q.count with
  | none => rfl
  | some b =>
    cases b with
    | false => rfl
    | true => rfl

theorem expandFrag_eq (q : ODataQuery) :
    (if optStrTruthy q.expand then
        ["$expand=" ++ pyLower (q.expand.getD "")] else ([] : List String))
      = expandFrag q := by
  unfold expandFrag
  cases he : q.expand with
  | none => rfl
  | some s =>
    by_cases hs : s = ""
    · subst hs; rfl
    · simp [optStrTruthy, String.isEmpty_iff, hs]

theorem selectFrag_eq (q : ODataQuery) :
    (if optListTruthy q.select then
        ["$select=" ++ pyJoin "," (q.select.getD [])] else ([] : List String))
      = selectFrag q := by
  unfold selectFrag
  cases hs : q.select with
  | none => rfl
  | some l =>
    by_cases hl : l = []
    · subst hl; rfl
    · simp [optListTruthy, List.isEmpty_iff, hl]

theorem topFrag_eq (q : ODataQuery) :
    (if optIntTruthy q.top then
        ["$top=" ++ toString (q.top.getD 0)] else ([] : List String))
      = topFrag q := by
  unfold topFrag
  cases ht : q.top with
  | none => rfl
  | some n =>
    by_cases hn : n = 0
    · subst hn; rfl
    · simp [optIntTruthy, hn]

theorem strParts_eq_specFragments (q : ODataQuery) :
    q.strParts = specFragments q := by
  unfold ODataQuery.strParts specFragments
  cases hfc : filterClause q with
  | none => rfl
  | some fc =>
    simp only [Option.bind_eq_bind, Option.some_bind, Option.pure_def, Option.map_some']
    rw [concat_ite, concat_ite, concat_ite, concat_ite]
    rw [countFrag_eq, expandFrag_eq, selectFrag_eq, topFrag_eq]
    simp [List.append_assoc]

theorem isTruthyEmpty_iff (q : ODataQuery) :
    q.isTruthyEmpty = true ↔
      (q.count = none ∨ q.count = some false)
      ∧ (q.expand = none ∨ q.expand = some "")
      ∧ q.filter = none
      ∧ (q.select = none ∨ q.select = some [])
      ∧ (q.top = none ∨ q.top = some 0) := by
  unfold ODataQuery.isTruthyEmpty
  rw [Bool.and_eq_true, Bool.and_eq_true, Bool.and_eq_true, Bool.and_eq_true]
  rw [Bool.not_eq_true', Bool.not_eq_true', Bool.not_eq_true', Bool.not_eq_true',
    Bool.not_eq_true']
  rw [optBoolTruthy_eq_false, optStrTruthy_eq_false, optListTruthy_eq_false,
    optIntTruthy_eq_false, isSome_eq_false]
  tauto

theorem length_pos_of_ne_empty (s : String) (h : s ≠ "") : 0 < s.length := by
  cases s with
  | mk l =>
    cases l with
    | nil => exact absurd rfl h
    | cons c cs => simp [String.length]

theorem ne_empty_of_length_pos (s : String) (h : 0 < s.length) : s ≠ "" := by
  intro he
  subst he
  simp at h

theorem length_pos_mid (x y z : String) (h : 0 < y.length) : 0 < (x ++ y ++ z).length := by
  rw [String.length_append, String.length_append]
  omega

theorem length_pos_right (x y : String) (h : 0 < y.length) : 0 < (x ++ y).length := by
  rw [String.length_append]
  omega

theorem constrainStr_length_pos (a o v : PyVal) (s : String)
    (h : constrainStr a o v = some s) : 0 < s.length := by
  unfold constrainStr at h
  cases o
  case pyOperator op =>
    cases ha : pyScalarStr a with
    | none => rw [ha] at h; simp at h
    | some sa =>
      cases hv : pyScalarStr v with
      | none => rw [ha, hv] at h; simp at h
      | some sv =>
        rw [ha, hv] at h
        simp only [Option.some.injEq] at h
        subst h
        cases op <;> unfold LogicalOperator.template
        case EQ => exact length_pos_mid _ _ _ (by decide)
        case NE => exact length_pos_mid _ _ _ (by decide)
        case LT => exact length_pos_mid _ _ _ (by decide)
        case GT => exact length_pos_mid _ _ _ (by decide)
        case LE => exact length_pos_mid _ _ _ (by decide)
        case GE => exact length_pos_mid _ _ _ (by decide)
        case STARTS_WITH => exact length_pos_right _ _ (by decide)
        case ENDS_WITH => exact length_pos_right _ _ (by decide)
  all_goals simp at h

theorem constrainStrOf_ne_empty (c : PyVal) (s : String)
    (h : constrainStrOf c = some s) : s ≠ "" := by
  unfold constrainStrOf at h
  cases c
  case pyConstrain a o v =>
    exact ne_empty_of_length_pos s (constrainStr_length_pos a o v s h)
  all_goals simp at h

theorem buildFilterGo_eq (conn : LogicalConnector) (cs : List PyVal) :
    ∀ (ss : List String), cs.mapM constrainStrOf = some ss →
    ∀ res : String, res ≠ "" →
    buildFilterGo (some conn) cs res
      = some (ss.foldl (fun acc x => acc ++ (" " ++ conn.nameLower ++ " ") ++ x) res) := by
  induction cs with
  | nil =>
    intro ss h res hres
    rw [List.mapM_nil] at h
    cases h
    rfl
  | cons c rest ih =>
    intro ss h res hres
    rw [List.mapM_cons] at h
    cases hc : constrainStrOf c <;> rw [hc] at h <;>
      cases hr : rest.mapM constrainStrOf <;> rw [hr] at h <;>
        simp only [Option.bind_eq_bind, Option.some_bind, Option.none_bind,
          Option.pure_def, Option.some.injEq, reduceCtorEq] at h
    case some.some s0 ss' =>
    subst h
    unfold buildFilterGo
    rw [if_neg hres, hc]
    simp only [Option.map_some', List.foldl_cons]
    have hne : res ++ " " ++ conn.nameLower ++ " " ++ s0 ≠ "" := by
      apply ne_empty_of_length_pos
      simp only [String.length_append]
      have := length_pos_of_ne_empty res hres
      omega
    rw [ih ss' hr _ hne]
    have harg : res ++ " " ++ conn.nameLower ++ " " ++ s0
        = res ++ (" " ++ conn.nameLower ++ " ") ++ s0 := by
      simp [String.append_assoc]
    rw [harg]

theorem buildFilter_join (f : Filter) (c0 : PyVal) (cs : List PyVal)
    (conn : LogicalConnector) (s0 : String) (ss : List String)
    (hcs : f.constrains = some (c0 :: cs)) (hconn : f.logical_connector = some conn)
    (h0 : constrainStrOf c0 = some s0) (hss : cs.mapM constrainStrOf = some ss) :
    ODataQuery.buildFilter f = some (specFilterJoin conn (s0 :: ss)) := by
  unfold ODataQuery.buildFilter
  rw [hcs, hconn]
  unfold buildFilterGo
  rw [if_pos rfl, h0]
  show buildFilterGo (some conn) cs s0 = some (specFilterJoin conn (s0 :: ss))
  rw [buildFilterGo_eq conn cs ss hss s0 (constrainStrOf_ne_empty c0 s0 h0)]
  rfl

theorem listAllLoop_of_chain {α : Type} (env : String → Page α)
    {u : Option String} {tr : List (PageEvent α)} {n : Nat}
    (h : PageChain env u tr n) :
    ∀ fuel : Nat, n ≤ fuel → listAllLoop env fuel u = some tr := by
  induction h with
  | stop u hu =>
    intro fuel hf
    unfold listAllLoop
    rw [hu]
    rfl
  | step url hurl tr n hrest ih =>
    intro fuel hf
    match fuel with
    | 0 => omega
    | fuel' + 1 =>
      unfold listAllLoop
      have : nextTruthy (some url) = true := by simp [nextTruthy, hurl]
      rw [this, if_pos rfl]
      show (listAllLoop env fuel' (env url).nextUrl).map _ = _
      rw [ih fuel' (by omega)]
      rfl

theorem traceItems_yields_append {α : Type} (l : List α) (tr : List (PageEvent α)) :
    traceItems (l.map PageEvent.yielded ++ tr) = l ++ traceItems tr := by
  unfold traceItems
  rw [List.filterMap_append, List.filterMap_map]
  congr 1
  induction l with
  | nil => rfl
  | cons x xs ih => simpa using ih

theorem dictFind_map_replace_hit (d : List (String × String)) (k v : String)
    (hany : d.any (fun p => p.1 = k) = true) :
    (d.map fun p => if p.1 = k then (k, v) else p).find? (fun p => p.1 = k)
      = some (k, v) := by
  induction d with
  | nil => simp at hany
  | cons hd tl ih =>
    by_cases hk : hd.1 = k
    · simp [List.find?, hk]
    · have htl : tl.any (fun p => p.1 = k) = true := by
        simp [List.any_cons, hk] at hany
        simpa using hany
      simp [List.find?, hk, ih htl]

theorem dictFind_map_replace_miss (d : List (String × String)) (k v k2 : String)
    (hne : k2 ≠ k) :
    (d.map fun p => if p.1 = k then (k, v) else p).find? (fun p => p.1 = k2)
      = d.find? (fun p => p.1 = k2) := by
  induction d with
  | nil => rfl
  | cons hd tl ih =>
    by_cases hk : hd.1 = k
    · have h2 : ¬ (k = k2) := fun h => hne h.symm
      have h3 : ¬ (hd.1 = k2) := by rw [hk]; exact h2
      simp [List.find?, hk, h2, h3, ih]
    · by_cases h4 : hd.1 = k2
      · simp [List.find?, hk, h4, hne]
      · simp [List.find?, hk, h4, ih]

theorem dictGet_dictInsert (d : List (String × String)) (k v k2 : String) :
    dictGet (dictInsert d k v) k2 = if k2 = k then some v else dictGet d k2 := by
  unfold dictInsert dictGet
  by_cases hany : d.any (fun p => p.1 = k) = true
  · rw [if_pos hany]
    by_cases hk : k2 = k
    · subst hk
      rw [if_pos rfl, dictFind_map_replace_hit d k2 v hany]
      rfl
    · rw [if_neg hk, dictFind_map_replace_miss d k v k2 hk]
  · rw [if_neg hany]
    rw [List.find?_append]
    by_cases hk : k2 = k
    · subst hk
      have hnone : d.find? (fun p => p.1 = k2) = none := by
        rw [List.find?_eq_none]
        intro x hx hpx
        exact hany (List.any_eq_true.mpr ⟨x, hx, hpx⟩)
      rw [hnone, if_pos rfl]
      simp [List.find?]
    · have hone : (((k, v) :: []) : List (String × String)).find? (fun p => p.1 = k2)
          = none := by
        rw [List.find?_eq_none]
        intro x hx hpx
        simp at hx
        subst hx
        simp at hpx
        exact hk hpx.symm
      rw [hone, if_neg hk]
      cases d.find? (fun p => p.1 = k2) <;> rfl

theorem dictGet_dictUpdate (d u : List (String × String)) (k : String) :
    dictGet (dictUpdate d u) k
      = match lastBinding u k with
        | some v => some v
        | none => dictGet d k := by
  induction u generalizing d with
  | nil => rfl
  | cons hd tl ih =>
    show dictGet (dictUpdate (dictInsert d hd.1 hd.2) tl) k = _
    rw [ih]
    unfold lastBinding
    rw [List.reverse_cons, List.find?_append]
    cases hfind : tl.reverse.find? (fun p => p.1 = k) with
    | some p => simp [Option.or]
    | none =>
      simp only [Option.or, Option.map]
      rw [dictGet_dictInsert]
      by_cases hk : k = hd.1
      · subst hk
        simp [List.find?]
      · have : ¬ (hd.1 = k) := fun h => hk h.symm
        simp [List.find?, this, hk]

theorem toStr_of_empty (q : ODataQuery) (h : q.isTruthyEmpty = true) :
    q.toStr = some "EMPTY OPEN DATA QUERY" := by
  unfold ODataQuery.toStr
  rw [h]
  simp

theorem toStr_of_not_empty (q : ODataQuery) (h : q.isTruthyEmpty = false) :
    q.toStr = (specFragments q).map fun res => "?" ++ pyJoin "&" res := by
  unfold ODataQuery.toStr
  rw [h]
  simp [strParts_eq_specFragments]

/-! ## Claim theorems -/

/-- Claim C1 (corrected): string conversion of an ODataQuery returns the
sentinel exactly when every slot is falsy (count unset or False, expand
unset or empty, filter unset, select unset or empty, top unset or zero);
otherwise it returns the question mark followed by the key=value pairs of
the truthy slots in the fixed order count, expand, filter, select, top,
joined by the ampersand.  A query with only top set to 50 serializes to
exactly ?$top=50, and a query with nothing set to the sentinel.  Slots
holding falsy values are omitted just like unset ones, which is where the
original claim fails. -/
theorem query_string_serialization (q : ODataQuery) :
    (q.isTruthyEmpty = true ↔
      (q.count = none ∨ q.count = some false)
      ∧ (q.expand = none ∨ q.expand = some "")
      ∧ q.filter = none
      ∧ (q.select = none ∨ q.select = some [])
      ∧ (q.top = none ∨ q.top = some 0))
    ∧ (q.isTruthyEmpty = true → q.toStr = some "EMPTY OPEN DATA QUERY")
    ∧ (q.isTruthyEmpty = false →
        q.toStr = (specFragments q).map fun res => "?" ++ pyJoin "&" res)
    ∧ ODataQuery.toStr { top := some 50 } = some "?$top=50"
    ∧ ODataQuery.toStr {} = some "EMPTY OPEN DATA QUERY" :=
  ⟨isTruthyEmpty_iff q, toStr_of_empty q, toStr_of_not_empty q, rfl, rfl⟩

/-- Counterexample to C1 as stated: a query whose count field IS set (to
False) does not serialize to a fragment beginning with the question mark
containing its pair; it collapses to the sentinel. -/
theorem query_string_serialization_cex :
    ({ count := some false } : ODataQuery).count.isSome = true
    ∧ ODataQuery.toStr { count := some false } = some "EMPTY OPEN DATA QUERY"
    ∧ pyStartsWith "EMPTY OPEN DATA QUERY" "?" = false :=
  ⟨rfl, rfl, rfl⟩

/-- Witness for C1: the amended theorem applied at the top=50 query and at
the empty query. -/
theorem query_string_serialization_witness :
    ODataQuery.isTruthyEmpty { top := some 50 } = false
    ∧ ODataQuery.toStr { top := some 50 }
        = ((specFragments { top := some 50 }).map fun res => "?" ++ pyJoin "&" res)
    ∧ ODataQuery.isTruthyEmpty {} = true
    ∧ ODataQuery.toStr {} = some "EMPTY OPEN DATA QUERY" :=
  ⟨rfl, (query_string_serialization { top := some 50 }).2.2.1 rfl, rfl,
    (query_string_serialization {}).2.1 rfl⟩

/-- Claim C7 (corrected): when count is set to True the serialization
starts with ?$count=true, but $count=false is never emitted: a count slot
holding False is treated as unset by the truthiness tests, so a query
with only count=False set collapses to the very sentinel the claim says
it must be distinguishable from. -/
theorem count_serialization (q : ODataQuery) :
    (q.count = some true → ∀ fc, filterClause q = some fc →
      ∃ rest, q.toStr = some ("?$count=true" ++ rest))
    ∧ (∀ b, ODataQuery.toStr { count := some b }
        = if b then some "?$count=true" else some "EMPTY OPEN DATA QUERY") := by
  constructor
  · intro hc fc hfc
    have hempty : q.isTruthyEmpty = false := by
      simp [ODataQuery.isTruthyEmpty, hc, optBoolTruthy]
    have hcount : countFrag q = ["$count=true"] := by
      unfold countFrag
      rw [if_pos hc]
    have hspec : specFragments q
        = some ("$count=true" :: (expandFrag q ++ fc ++ selectFrag q ++ topFrag q)) := by
      unfold specFragments
      rw [hfc, Option.map_some', hcount]
      simp
    rw [toStr_of_not_empty q hempty, hspec, Option.map_some', pyJoin_cons]
    refine ⟨(expandFrag q ++ fc ++ selectFrag q ++ topFrag q).foldl
        (fun acc x => acc ++ "&" ++ x) "", ?_⟩
    rw [← String.append_assoc]
    have hlit : ("?" ++ "$count=true" : String) = "?$count=true" := rfl
    rw [hlit]
  · intro b
    cases b with
    | false => rfl
    | true => rfl

/-- Counterexample to C7 as stated: count set to False is omitted from the
fragment (no $count=false next to $top=50), and with nothing else set the
result is the sentinel itself. -/
theorem count_serialization_cex :
    ODataQuery.toStr { count := some false, top := some 50 } = some "?$top=50"
    ∧ ODataQuery.toStr { count := some false } = some "EMPTY OPEN DATA QUERY" :=
  ⟨rfl, rfl⟩

/-- Witness for C7: the amended theorem applied at the count=True query. -/
theorem count_serialization_witness :
    ∃ rest, ODataQuery.toStr { count := some true } = some ("?$count=true" ++ rest) :=
  (count_serialization { count := some true }).1 rfl [] rfl

/-- Claim C10 (confirmed): a query whose only populated slot is a Filter
with an unset or empty constraint list converts to the bare question
mark: the Filter instance defeats the sentinel check (it is always
truthy) while the filter clause is additionally guarded on a non-empty
constraint list, so no pair is emitted either. -/
theorem empty_filter_serialization (f : Filter)
    (h : f.constrains = none ∨ f.constrains = some []) :
    ODataQuery.toStr { filter := some f } = some "?"
    ∧ "?" ≠ "EMPTY OPEN DATA QUERY" := by
  constructor
  · have hempty : ODataQuery.isTruthyEmpty { filter := some f } = false := rfl
    have hfc : filterClause { filter := some f } = some [] := by
      rcases h with h | h <;> simp [filterClause, h, optListTruthy]
    rw [toStr_of_not_empty _ hempty]
    unfold specFragments
    rw [hfc]
    rfl
  · decide

/-- Witness for C10: the theorem applied to a Filter with an unset
constraint list and to one with an empty constraint list. -/
theorem empty_filter_serialization_witness :
    ODataQuery.toStr { filter := some ({} : Filter) } = some "?"
    ∧ ODataQuery.toStr { filter := some { constrains := some [] } } = some "?" :=
  ⟨(empty_filter_serialization {} (Or.inl rfl)).1,
    (empty_filter_serialization { constrains := some [] } (Or.inr rfl)).1⟩

/-- Claim C9 (confirmed): a Filter with a non-empty constraint list and a
connector set renders as the constraints, each through the fixed template
of its operator with literal substitution, joined by the lower-case
connector name; inside a query this becomes the single $filter= pair. -/
theorem filter_serialization (f : Filter) (c0 : PyVal) (cs : List PyVal)
    (conn : LogicalConnector) (s0 : String) (ss : List String)
    (hcs : f.constrains = some (c0 :: cs)) (hconn : f.logical_connector = some conn)
    (h0 : constrainStrOf c0 = some s0) (hss : cs.mapM constrainStrOf = some ss) :
    ODataQuery.buildFilter f = some (specFilterJoin conn (s0 :: ss))
    ∧ ∀ q : ODataQuery, q.filter = some f →
        filterClause q = some ["$filter=" ++ specFilterJoin conn (s0 :: ss)] := by
  have hb := buildFilter_join f c0 cs conn s0 ss hcs hconn h0 hss
  refine ⟨hb, ?_⟩
  intro q hq
  simp [filterClause, hq, hcs, hb, optListTruthy]

/-- Witness for C9: the testable-properties example, two constraints
joined by OR. -/
theorem filter_serialization_witness :
    ODataQuery.buildFilter filterEx = some "name eq \x27x\x27 or age gt \x2710\x27"
    ∧ ODataQuery.toStr { filter := some filterEx }
        = some "?$filter=name eq \x27x\x27 or age gt \x2710\x27" := by
  have h := filter_serialization filterEx constrainNameEx [constrainAgeEx] .OR
      "name eq \x27x\x27" ["age gt \x2710\x27"] rfl rfl rfl rfl
  exact ⟨h.1, rfl⟩

/-- Claim C8 (corrected): the setters of ODataQuery and Filter all
type-check at assignment time and raise the descriptive source message on
an ill-typed value, but the Constrain constructor performs no validation
at all: it accepts arbitrarily typed attribute, operator and value, and
an ill-typed operator only fails later, when the constraint is rendered
at serialization time. -/
theorem setter_fail_fast :
    (∀ (q : ODataQuery) (v : PyVal), (∀ b, v ≠ PyVal.pyBool b) →
      ODataQuery.setCount q v = .error "count must be boolean")
    ∧ (∀ (q : ODataQuery) (b : Bool),
      ODataQuery.setCount q (.pyBool b) = .ok { q with count := some b })
    ∧ (∀ (q : ODataQuery) (v : PyVal), (∀ s, v ≠ PyVal.pyStr s) →
      ODataQuery.setExpand q v = .error "expand must be string")
    ∧ (∀ (q : ODataQuery) (v : PyVal), (∀ l, v ≠ PyVal.pyList l) →
      ODataQuery.setSelect q v = .error "select must be list of strings")
    ∧ (∀ (q : ODataQuery) (l : List PyVal), l.mapM PyVal.asStr = none →
      ODataQuery.setSelect q (.pyList l) = .error "all values should be strings")
    ∧ (∀ (q : ODataQuery) (v : PyVal), PyVal.asFilter v = none →
      ODataQuery.setFilter q v = .error "filter must of Filter type")
    ∧ (∀ (q : ODataQuery) (v : PyVal), (∀ n, v ≠ PyVal.pyInt n) →
      ODataQuery.setTop q v = .error "top must be integer")
    ∧ (∀ (f : Filter) (v : PyVal), (∀ l, v ≠ PyVal.pyList l) →
      Filter.setConstrains f v = .error "constrains must be list")
    ∧ (∀ (f : Filter) (l : List PyVal), l.all PyVal.isConstrain = false →
      Filter.setConstrains f (.pyList l) = .error "all values must be constrains")
    ∧ (∀ (f : Filter) (v : PyVal), (∀ c, v ≠ PyVal.pyConnector c) →
      Filter.setLogicalConnector f v
        = .error "logical connector must be of type LogicalConnector")
    ∧ (∀ a o v : PyVal, constrainInit a o v = .ok (.pyConstrain a o v)) := by
  refine ⟨?_, fun q b => rfl, ?_, ?_, ?_, ?_, ?_, ?_, ?_, ?_, fun a o v => rfl⟩
  · intro q v h
    cases v <;> first
      | rfl
      | exact absurd rfl (h _)
  · intro q v h
    cases v <;> first
      | rfl
      | exact absurd rfl (h _)
  · intro q v h
    cases v <;> first
      | rfl
      | exact absurd rfl (h _)
  · intro q l h
    simp only [ODataQuery.setSelect]
    rw [h]
  · intro q v h
    cases v <;> first
      | rfl
      | simp [PyVal.asFilter] at h
  · intro q v h
    cases v <;> first
      | rfl
      | exact absurd rfl (h _)
  · intro f v h
    cases v <;> first
      | rfl
      | exact absurd rfl (h _)
  · intro f l h
    simp [Filter.setConstrains, h]
  · intro f v h
    cases v <;> first
      | rfl
      | exact absurd rfl (h _)

/-- Counterexample to C8 as stated: constructing a Constrain from an
integer attribute, a string in the operator slot and None as value
succeeds without any error at construction time, and the failure is
deferred to serialization, exactly what the fail-fast policy excludes. -/
theorem setter_fail_fast_cex :
    constrainInit (.pyInt 5) (.pyStr "eq") .pyNone
      = .ok (.pyConstrain (.pyInt 5) (.pyStr "eq") .pyNone)
    ∧ constrainStrOf (.pyConstrain (.pyInt 5) (.pyStr "eq") .pyNone) = none :=
  ⟨rfl, rfl⟩

/-- Witness for C8: the rejection branches of the theorem applied at
concrete ill-typed values. -/
theorem setter_fail_fast_witness :
    ODataQuery.setCount {} (.pyInt 3) = .error "count must be boolean"
    ∧ ODataQuery.setSelect {} (.pyList [.pyStr "a", .pyInt 1])
        = .error "all values should be strings"
    ∧ ODataQuery.setFilter {} (.pyBool true) = .error "filter must of Filter type"
    ∧ Filter.setConstrains {} (.pyStr "x") = .error "constrains must be list"
    ∧ Filter.setConstrains {} (.pyList [.pyNone]) = .error "all values must be constrains"
    ∧ Filter.setLogicalConnector {} (.pyInt 1)
        = .error "logical connector must be of type LogicalConnector" := by
  obtain ⟨h1, _, _, _, h5, h6, _, h8, h9, h10, _⟩ := setter_fail_fast
  exact ⟨h1 {} _ (fun b hb => PyVal.noConfusion hb),
    h5 {} [.pyStr "a", .pyInt 1] rfl,
    h6 {} _ rfl,
    h8 {} _ (fun l hl => PyVal.noConfusion hl),
    h9 {} [.pyNone] rfl,
    h10 {} _ (fun c hc => PyVal.noConfusion hc)⟩

/-- Claim C2 (confirmed): a paginated generator yields the items of the
first page in order, performs each continuation fetch only after the
items of the previous page have been yielded, and stops at the first page
whose continuation URL is falsy; over the three-page fixture it yields
exactly the six items in page and item order and terminates. -/
theorem pagination_traversal {α : Type} (first : Page α) (env : String → Page α)
    (tr : List (PageEvent α)) (n fuel : Nat)
    (h : PageChain env first.nextUrl tr n) (hf : n ≤ fuel) :
    listAllTrace first env fuel = some (first.value.map PageEvent.yielded ++ tr)
    ∧ traceItems (first.value.map PageEvent.yielded ++ tr)
        = first.value ++ traceItems tr := by
  refine ⟨?_, traceItems_yields_append first.value tr⟩
  unfold listAllTrace
  rw [listAllLoop_of_chain env h fuel hf]
  rfl

/-- Witness for C2: the three-page fixture, two items per page, third page
without a continuation URL: the full trace and the six items. -/
theorem pagination_traversal_witness :
    listAllTrace firstPageEx pagesEnvEx 2
      = some [PageEvent.yielded 1, .yielded 2, .fetched "u2", .yielded 3, .yielded 4,
          .fetched "u3", .yielded 5, .yielded 6]
    ∧ traceItems [PageEvent.yielded 1, .yielded 2, .fetched "u2", .yielded 3,
          .yielded 4, .fetched "u3", .yielded 5, .yielded 6] = [1, 2, 3, 4, 5, 6] := by
  have h3 : PageChain pagesEnvEx (none : Option String) [] 0 := PageChain.stop none rfl
  have h2 : PageChain pagesEnvEx (some "u3")
      [PageEvent.fetched "u3", .yielded 5, .yielded 6] 1 :=
    PageChain.step "u3" rfl [] 0 h3
  have hchain : PageChain pagesEnvEx (some "u2")
      [PageEvent.fetched "u2", .yielded 3, .yielded 4, .fetched "u3", .yielded 5,
        .yielded 6] 2 :=
    PageChain.step "u2" rfl _ 1 h2
  have h := pagination_traversal firstPageEx pagesEnvEx _ 2 2 hchain (by decide)
  exact ⟨h.1, rfl⟩

/-- Claim C3 (confirmed; the status-to-exception table is modelled from
the spec because exceptions.py is not among the sources): without
caller-provided expected statuses the expected set is
OK/NO_CONTENT/CREATED; an expected status returns the payload and the
status, any other status raises the error kind of the fixed table
(unknown-API-error for unmapped codes) carrying the response payload and
the response headers; in particular a 404 raises the not-found kind with
the original body. -/
theorem request_error_mapping (resp : HttpResponse) (payload : Payload)
    (hp : readPayload resp = some payload) :
    ((resp.status = 200 ∨ resp.status = 204 ∨ resp.status = 201) →
      graphRequest resp none = some (.ok (payload, resp.status)))
    ∧ (¬(resp.status = 200 ∨ resp.status = 204 ∨ resp.status = 201) →
      graphRequest resp none = some (.error
        { kind := status2exception resp.status, payload := payload,
          respHeaders := resp.headers }))
    ∧ (resp.status = 404 →
      graphRequest resp none = some (.error
        { kind := .notFound, payload := payload, respHeaders := resp.headers })) := by
  have hbase : graphRequest resp none
      = some (if defaultExpectedStatuses.contains resp.status
          then .ok (payload, resp.status)
          else .error
            { kind := status2exception resp.status
              payload := payload
              respHeaders := resp.headers }) := by
    unfold graphRequest
    rw [hp]
    rfl
  have hmem : defaultExpectedStatuses.contains resp.status = true ↔
      (resp.status = 200 ∨ resp.status = 204 ∨ resp.status = 201) := by
    simp [defaultExpectedStatuses, List.contains_iff_exists_mem_beq]
  refine ⟨?_, ?_, ?_⟩
  · intro h
    rw [hbase, hmem.mpr h]
    rfl
  · intro h
    have hc : defaultExpectedStatuses.contains resp.status = false := by
      cases hc : defaultExpectedStatuses.contains resp.status with
      | false => rfl
      | true => exact absurd (hmem.mp hc) h
    rw [hbase, hc]
    rfl
  · intro h
    rw [hbase, h]
    rfl

/-- Witness for C3: the theorem applied to a concrete 404 JSON response. -/
theorem request_error_mapping_witness :
    graphRequest notFoundRespEx none = some (.error
      { kind := .notFound, payload := .jsonContent (.pyStr "Resource not found"),
        respHeaders := [("Content-Type", "application/json")] }) :=
  (request_error_mapping notFoundRespEx (.jsonContent (.pyStr "Resource not found"))
    rfl).2.2 rfl

/-- Claim C4 (confirmed): a first manage_token call on an unmanaged client
with a successful acquisition stores the token and enters managed mode; a
second call then fails with the already-managed configuration error,
leaves the whole state (the stored token included) unchanged, and
attempts no token acquisition. -/
theorem manage_token_twice (st : ClientState)
    (acq1 acq2 : Except String (List (String × String) × Nat))
    (content : List (String × String)) (status : Nat) (tok : String)
    (h0 : st.managed = false) (h1 : acq1 = .ok (content, status))
    (h2 : dictGet content "access_token" = some tok) :
    (manageToken st acq1).result = .ok ()
    ∧ (manageToken st acq1).state.managed = true
    ∧ (manageToken st acq1).state.token = some tok
    ∧ manageToken (manageToken st acq1).state acq2
        = { result := .error "Token is already managed",
            state := (manageToken st acq1).state, acquired := false } := by
  subst h1
  have hfirst : manageToken st (Except.ok (content, status))
      = { result := .ok ()
          state :=
            { st with
              token := some tok
              managed := true
              scheduled := st.scheduled.concat st.token_refresh_interval_sec }
          acquired := true } := by
    simp [manageToken, h0, h2]
  refine ⟨by simp [hfirst], by simp [hfirst], by simp [hfirst], ?_⟩
  rw [hfirst]
  simp [manageToken]

/-- Witness for C4: a concrete unmanaged client, a successful first
acquisition, then the failing second call. -/
theorem manage_token_twice_witness :
    (manageToken {} (.ok ([("access_token", "tokA")], 200))).state.token = some "tokA"
    ∧ (manageToken (manageToken {} (.ok ([("access_token", "tokA")], 200))).state
        (.ok ([("access_token", "tokB")], 200))).result
        = .error "Token is already managed"
    ∧ (manageToken (manageToken {} (.ok ([("access_token", "tokA")], 200))).state
        (.ok ([("access_token", "tokB")], 200))).state
        = (manageToken {} (.ok ([("access_token", "tokA")], 200))).state := by
  have h := manage_token_twice {} (.ok ([("access_token", "tokA")], 200))
      (.ok ([("access_token", "tokB")], 200)) [("access_token", "tokA")] 200 "tokA"
      rfl rfl rfl
  exact ⟨h.2.2.1, by rw [h.2.2.2], by rw [h.2.2.2]⟩

/-- Claim C6 (corrected): every value outside [60, 3600] is rejected
immediately with the configuration error (in particular 30), and an
in-range value is accepted, but the setter never consults the managed
flag: assignment is possible in managed mode too, contrary to the claim
that it is possible only while not yet managed. -/
theorem refresh_interval_validation (st : ClientState) (v : Int) :
    ((v < 60 ∨ v > 3600) → setTokenRefreshIntervalSec st v
        = .error "refresh interval must be between 60 and 3600 seconds")
    ∧ (60 ≤ v → v ≤ 3600 → setTokenRefreshIntervalSec st v
        = .ok { st with token_refresh_interval_sec := v })
    ∧ setTokenRefreshIntervalSec st 30
        = .error "refresh interval must be between 60 and 3600 seconds" := by
  refine ⟨?_, ?_, ?_⟩
  · intro h
    unfold setTokenRefreshIntervalSec
    rw [if_pos h]
  · intro h1 h2
    unfold setTokenRefreshIntervalSec
    rw [if_neg (by omega)]
  · unfold setTokenRefreshIntervalSec
    rw [if_pos (by omega)]

/-- Counterexample to C6 as stated: on a client already in managed mode,
assigning an in-range interval succeeds; the setter does not reject it. -/
theorem refresh_interval_validation_cex :
    ({ managed := true } : ClientState).managed = true
    ∧ setTokenRefreshIntervalSec { managed := true } 100
        = .ok { managed := true, token_refresh_interval_sec := 100 } :=
  ⟨rfl, rfl⟩

/-- Witness for C6: rejection of 30 and acceptance of 120 on a managed
client. -/
theorem refresh_interval_validation_witness :
    setTokenRefreshIntervalSec {} 30
      = .error "refresh interval must be between 60 and 3600 seconds"
    ∧ setTokenRefreshIntervalSec { managed := true } 120
        = .ok { managed := true, token_refresh_interval_sec := 120 } :=
  ⟨(refresh_interval_validation {} 30).2.2,
    (refresh_interval_validation { managed := true } 120).2.1 (by decide) (by decide)⟩

/-- Claim C5 (confirmed): with neither a truthy explicit call token nor a
truthy stored client token the decorator fails at once with the
token-not-available error and the wrapped operation is never invoked;
with a token available the built headers carry authorization (the bearer
prefix added unless the token already starts with bearer
case-insensitively) and the JSON Content-type, and caller extra headers
are applied last, so on a key conflict the caller binding wins. -/
theorem authorized_token_and_headers :
    (∀ (ct kt : Option String) (ex : Option (List (String × String))),
      optStrTruthy ct = false → optStrTruthy kt = false →
      authorizedHeaders ct kt ex
        = .error "Token is not managed so you must explicitly provide it")
    ∧ (∀ ct kt : Option String, (optStrTruthy ct || optStrTruthy kt) = true →
      authorizedHeaders ct kt none
        = .ok (buildAuthHeader (selectedToken ct kt)
            ++ [("Content-type", "application/json")]))
    ∧ (∀ (ct kt : Option String) (h : List (String × String)),
      authorizedHeaders ct kt none = .ok h →
      dictGet h "authorization"
          = some (if pyStartsWith (pyLower (selectedToken ct kt)) "bearer"
              then selectedToken ct kt else "bearer " ++ selectedToken ct kt)
        ∧ dictGet h "Content-type" = some "application/json")
    ∧ (∀ (ct kt : Option String) (ex : List (String × String))
        (k v : String) (h : List (String × String)),
      lastBinding ex k = some v →
      authorizedHeaders ct kt (some ex) = .ok h →
      dictGet h k = some v) := by
  have hCT : ∀ t : String,
      dictUpdate (buildAuthHeader t) [("Content-type", "application/json")]
        = buildAuthHeader t ++ [("Content-type", "application/json")] := by
    intro t
    cases hb : pyStartsWith (pyLower t) "bearer" <;>
      simp [buildAuthHeader, hb, dictUpdate, dictInsert]
  refine ⟨?_, ?_, ?_, ?_⟩
  · intro ct kt ex h1 h2
    unfold authorizedHeaders
    rw [h1, h2]
    rfl
  · intro ct kt htok
    have hguard : (!optStrTruthy ct && !optStrTruthy kt) = false := by
      rw [← Bool.not_or, htok]
      rfl
    simp [authorizedHeaders, hguard, optDictTruthy, hCT]
  · intro ct kt h hok
    cases hguard : (!optStrTruthy ct && !optStrTruthy kt) with
    | true =>
      unfold authorizedHeaders at hok
      rw [hguard] at hok
      simp at hok
    | false =>
      unfold authorizedHeaders at hok
      rw [hguard] at hok
      simp only [Bool.false_eq_true, if_false, optDictTruthy, Except.ok.injEq] at hok
      subst hok
      rw [hCT]
      cases hb : pyStartsWith (pyLower (selectedToken ct kt)) "bearer" <;>
        simp [buildAuthHeader, hb, dictGet, List.find?]
  · intro ct kt ex k v h hlast hok
    have hne : ex.isEmpty = false := by
      cases ex with
      | nil => simp [lastBinding, List.find?] at hlast
      | cons hd tl => rfl
    cases hguard : (!optStrTruthy ct && !optStrTruthy kt) with
    | true =>
      unfold authorizedHeaders at hok
      rw [hguard] at hok
      simp at hok
    | false =>
      unfold authorizedHeaders at hok
      rw [hguard] at hok
      simp only [Bool.false_eq_true, if_false, optDictTruthy, Option.getD_some,
        hne, Bool.not_false, if_pos, Except.ok.injEq] at hok
      subst hok
      rw [dictGet_dictUpdate, hlast]

/-- Witness for C5: no token at all, a plain managed token, a
bearer-prefixed explicit token, and a caller header overriding the JSON
Content-type. -/
theorem authorized_token_and_headers_witness :
    authorizedHeaders none none none
      = .error "Token is not managed so you must explicitly provide it"
    ∧ authorizedHeaders (some "tok123") none none
        = .ok [("authorization", "bearer tok123"), ("Content-type", "application/json")]
    ∧ authorizedHeaders none (some "Bearer abc") none
        = .ok [("authorization", "Bearer abc"), ("Content-type", "application/json")]
    ∧ dictGet [("authorization", "bearer tok"), ("Content-type", "text/plain")]
        "Content-type" = some "text/plain" := by
  obtain ⟨h1, h2, _, h4⟩ := authorized_token_and_headers
  refine ⟨h1 none none none rfl rfl, h2 (some "tok123") none rfl,
    h2 none (some "Bearer abc") rfl,
    h4 (some "tok") none [("Content-type", "text/plain")] "Content-type" "text/plain"
      [("authorization", "bearer tok"), ("Content-type", "text/plain")] rfl rfl⟩

end MsGraphAsync
